import Mathlib

/-!
Shallow embedding of the BigQuery MCP gateway (app/bq_service.py,
app/policy.py, app/mcp_protocol.py, app/main.py) and proofs about it.

Python runtime values that can appear as filter values, set-values,
row cells and result cells are modelled by the inductive `PyVal`.
Payloads that the code only ever passes through or stringifies
(float repr, Decimal digits, date/time ISO strings) are carried as
`String` surrogates, which is faithful for every property proved here:
`str(Decimal)` and `isoformat()` are modelled as returning the carried
string.
-/

set_option maxRecDepth 4000

namespace BqMcp

mutual

inductive PyVal : Type where
  | vnone : PyVal
  | vbool (b : Bool) : PyVal
  | vint (n : Int) : PyVal
  | vfloat (r : String) : PyVal
  | vdec (digits : String) : PyVal
  | vdatetime (iso : String) : PyVal
  | vdate (iso : String) : PyVal
  | vtime (iso : String) : PyVal
  | vstr (s : String) : PyVal
  | vlist (xs : PyList) : PyVal
  | vdict (xs : PyDict) : PyVal

inductive PyList : Type where
  | nil : PyList
  | cons (hd : PyVal) (tl : PyList) : PyList

inductive PyDict : Type where
  | nil : PyDict
  | cons (key : String) (val : PyVal) (tl : PyDict) : PyDict

end

/-- `isinstance(v, bool)`. -/
def isinst_bool : PyVal → Bool
  | .vbool _ => true
  | _ => false

/-- `isinstance(v, int)`: in Python `bool` is a subtype of `int`. -/
def isinst_int : PyVal → Bool
  | .vbool _ => true
  | .vint _ => true
  | _ => false

/-- `isinstance(v, float)`. -/
def isinst_float : PyVal → Bool
  | .vfloat _ => true
  | _ => false

/-- `isinstance(v, decimal.Decimal)`. -/
def isinst_decimal : PyVal → Bool
  | .vdec _ => true
  | _ => false

/-- `isinstance(v, dt.datetime)`. -/
def isinst_datetime : PyVal → Bool
  | .vdatetime _ => true
  | _ => false

/-- `isinstance(v, dt.date)`: in Python `datetime` is a subtype of `date`. -/
def isinst_date : PyVal → Bool
  | .vdatetime _ => true
  | .vdate _ => true
  | _ => false

/-- `_param_type` from app/bq_service.py: the isinstance chain, in source
order (bool before int, datetime before date). -/
def param_type (value : PyVal) : String :=
  if isinst_bool value then "BOOL"
  else if isinst_int value then "INT64"
  else if isinst_float value then "FLOAT64"
  else if isinst_decimal value then "NUMERIC"
  else if isinst_datetime value then "TIMESTAMP"
  else if isinst_date value then "DATE"
  else "STRING"

mutual

/-- `_normalize_value` from app/bq_service.py: Decimal to `str(v)`,
date/time/datetime to `v.isoformat()`, lists and dicts recursively,
everything else unchanged. -/
def normalize_value : PyVal → PyVal
  | .vdec d => .vstr d
  | .vdatetime s => .vstr s
  | .vdate s => .vstr s
  | .vtime s => .vstr s
  | .vlist xs => .vlist (normalize_pylist xs)
  | .vdict xs => .vdict (normalize_pydict xs)
  | v => v

/-- The list comprehension branch of `_normalize_value`. -/
def normalize_pylist : PyList → PyList
  | .nil => .nil
  | .cons h t => .cons (normalize_value h) (normalize_pylist t)

/-- The dict comprehension branch of `_normalize_value`. -/
def normalize_pydict : PyDict → PyDict
  | .nil => .nil
  | .cons k v t => .cons k (normalize_value v) (normalize_pydict t)

end

/-- Errors raised by the application code: `ValueError` (validation) and
`PermissionError` (policy denial), each carrying `str(e)`. -/
inductive AppError : Type where
  | valueError (msg : String) : AppError
  | permissionError (msg : String) : AppError
deriving DecidableEq

/-- `str(e)` on an application exception. -/
def AppError.msg : AppError → String
  | .valueError m => m
  | .permissionError m => m

/-- First character class of `IDENT_RE`: `[A-Za-z_]`. -/
def ident_head (c : Char) : Bool :=
  c.isAlpha || c == '_'

/-- Continuation character class of `IDENT_RE`: `[A-Za-z0-9_]`. -/
def ident_tail (c : Char) : Bool :=
  c.isAlphanum || c == '_'

/-- The language of the pattern `[A-Za-z_][A-Za-z0-9_]{0,127}` over a
character list: one head character, then at most 127 tail characters. -/
def ident_chars : List Char → Bool
  | [] => false
  | c :: rest => ident_head c && decide (rest.length ≤ 127) && rest.all ident_tail

/-- The anchored language of the source regex
`^[A-Za-z_][A-Za-z0-9_]{0,127}$` under standard (full-string) anchor
semantics: exactly the strings of length 1 to 128 built from the two
character classes.  This is the reading of the pattern the spec states as
an invariant; compare with `py_re_match` below. -/
def ident_regex_lang (s : String) : Bool :=
  ident_chars s.data

/-- `IDENT_RE.match(name)` truthiness as Python evaluates it: without
`re.MULTILINE`, `$` matches at the end of the string AND just before a
newline at the end of the string, so the compiled pattern also accepts a
matching identifier followed by one trailing newline. -/
def py_re_match (s : String) : Bool :=
  ident_chars s.data ||
    (!s.data.isEmpty && s.data.getLast? == some '\n' && ident_chars s.data.dropLast)

/-- `_ensure_ident` from app/bq_service.py. -/
def ensure_ident (name label : String) : Except AppError String :=
  if py_re_match name then .ok name
  else .error (.valueError ("Invalid " ++ label ++ ": " ++ name))

/-- Python `str.upper()` restricted to ASCII case mapping (the strings the
code uppercases are operation names and type names). -/
def py_upper (s : String) : String := String.mk (s.data.map Char.toUpper)

/-- Python `str.lower()` restricted to ASCII case mapping. -/
def py_lower (s : String) : String := String.mk (s.data.map Char.toLower)

/-- Python `str.strip()`: remove leading and trailing whitespace. -/
def py_strip (s : String) : String :=
  String.mk (((s.data.dropWhile Char.isWhitespace).reverse.dropWhile
    Char.isWhitespace).reverse)

/-- The `Operation` enum from app/models.py. -/
inductive Operation : Type where
  | SELECT
  | CREATE_TABLE
  | INSERT
  | UPDATE
  | DELETE
deriving DecidableEq

/-- `Operation.value` (the enum's string value). -/
def Operation.value : Operation → String
  | .SELECT => "SELECT"
  | .CREATE_TABLE => "CREATE_TABLE"
  | .INSERT => "INSERT"
  | .UPDATE => "UPDATE"
  | .DELETE => "DELETE"

/-- `TableField` from app/models.py (after its validators have run). -/
structure TableField : Type where
  name : String
  type : String
  mode : String := "NULLABLE"

/-- A Python dict with string keys, as an insertion-ordered association
list (Python dicts preserve insertion order, which fixes the enumeration
order of the query-building loops). -/
abbrev PyStrDict : Type := List (String × PyVal)

/-- `ExecuteArgs` from app/models.py.  `limit` carries pydantic's default
of `100` when the field is absent from the request. -/
structure ExecuteArgs : Type where
  operation : Operation
  dataset : String
  table : String
  columns : Option (List String) := none
  filters : Option PyStrDict := none
  limit : Int := 100
  schema : Option (List TableField) := none
  if_not_exists : Bool := true
  rows : Option (List PyStrDict) := none
  set_values : Option PyStrDict := none

/-- The settings fields `BigQueryService` reads (app/config.py). -/
structure Svc : Type where
  project_id : String
  max_select_limit : Int := 1000
  allow_full_table_delete : Bool := false

/-- One `bigquery.ScalarQueryParameter(pname, type, value)`. -/
structure QueryParam : Type where
  name : String
  ptype : String
  value : PyVal

/-- The parameterized query handed to `client.query`: the generated SQL
text plus the `query_parameters` list of the job config. -/
structure StoreQuery : Type where
  sql : String
  params : List QueryParam

/-- The store interaction each operation performs, captured at the point
the code calls into the BigQuery client. -/
inductive StoreCall : Type where
  | query (q : StoreQuery)
  | insertRows (table_id : String) (rows : List PyStrDict)
  | createTable (table_id : String) (fields : List TableField)
      (if_not_exists : Bool)

/-- Python truthiness of an `Optional` list/dict field: `None` and the
empty collection are both falsy, so both collapse to `[]`. -/
def py_truthy_list {α : Type} (o : Option (List α)) : List α :=
  o.getD []

/-- `_table_ref` from app/bq_service.py. -/
def table_ref (svc : Svc) (dataset table : String) : Except AppError String := do
  let ds ← ensure_ident dataset "dataset"
  let tb ← ensure_ident table "table"
  .ok ("`" ++ svc.project_id ++ "." ++ ds ++ "." ++ tb ++ "`")

/-- `_col_ref` from app/bq_service.py. -/
def col_ref (col : String) : Except AppError String := do
  let c ← ensure_ident col "column"
  .ok ("`" ++ c ++ "`")

/-- `_col_ref` mapped over an explicit column list (the generator inside
`", ".join(...)` in `_select`); a raised `ValueError` propagates. -/
def col_refs : List String → Except AppError (List String)
  | [] => .ok []
  | c :: rest =>
    match col_ref c with
    | .error e => .error e
    | .ok r =>
      match col_refs rest with
      | .error e => .error e
      | .ok rs => .ok (r :: rs)

/-- One predicate-building loop of `_select` / `_update` / `_delete`:
`for i, (k, v) in enumerate(items)` emits the fragment
`` `k` = @{pfx}{i} `` and the typed parameter `(pfx ++ i, _param_type v, v)`.
The index argument starts at 0 and increments along the dict; a raised
`ValueError` from `_col_ref` propagates. -/
def where_parts (pfx : String) : Nat → PyStrDict → Except AppError (List String × List QueryParam)
  | _, [] => .ok ([], [])
  | i, (k, v) :: rest =>
    match col_ref k with
    | .error e => .error e
    | .ok col =>
      match where_parts pfx (i + 1) rest with
      | .error e => .error e
      | .ok pr =>
        .ok ((col ++ " = @" ++ (pfx ++ toString i)) :: pr.1,
             { name := pfx ++ toString i, ptype := param_type v, value := v } :: pr.2)

/-- Python `x or y` on an `int`: `0` is falsy, every other value truthy. -/
def py_int_or (l d : Int) : Int :=
  if l = 0 then d else l

/-- The limit computation of `_select`:
`min(max(int(args.limit or 100), 1), self.max_select_limit)`. -/
def eff_limit (maxSel l : Int) : Int :=
  min (max (py_int_or l 100) 1) maxSel

/-- The column-list expression of `_select`: `"*"` when `args.columns` is
falsy, else the comma-joined validated column references. -/
def select_cols (columns : Option (List String)) : Except AppError String :=
  match py_truthy_list columns with
  | [] => .ok "*"
  | c :: cs =>
    match col_refs (c :: cs) with
    | .error e => .error e
    | .ok rs => .ok (String.intercalate ", " rs)

/-- The filter block of `_select`: when `args.filters` is falsy the SQL is
left as-is with no parameters; otherwise the `AND`-joined WHERE clause is
appended and the filter parameters are collected. -/
def select_where (base : String) (fs : PyStrDict) :
    Except AppError (String × List QueryParam) :=
  match fs with
  | [] => .ok (base, [])
  | c :: rest =>
    match where_parts "f" 0 (c :: rest) with
    | .error e => .error e
    | .ok wp => .ok (base ++ " WHERE " ++ String.intercalate " AND " wp.1, wp.2)

/-- `_select` from app/bq_service.py, up to (and characterizing) the
`client.query` call: the generated SQL and parameter list. -/
def select_build (svc : Svc) (args : ExecuteArgs) : Except AppError StoreQuery :=
  match table_ref svc args.dataset args.table with
  | .error e => .error e
  | .ok tref =>
    match select_cols args.columns with
    | .error e => .error e
    | .ok cols =>
      let limit := eff_limit svc.max_select_limit args.limit
      match select_where ("SELECT " ++ cols ++ " FROM " ++ tref)
          (py_truthy_list args.filters) with
      | .error e => .error e
      | .ok step =>
        .ok { sql := step.1 ++ " LIMIT @limit",
              params := step.2
                ++ [{ name := "limit", ptype := "INT64", value := .vint limit }] }

/-- `_update` from app/bq_service.py, up to the `client.query` call.  The
SQL literal reproduces the indented triple-quoted f-string of the source
verbatim. -/
def update_build (svc : Svc) (args : ExecuteArgs) : Except AppError StoreQuery :=
  match py_truthy_list args.set_values with
  | [] => .error (.valueError "set_values is required for UPDATE")
  | s0 :: sv =>
    match py_truthy_list args.filters with
    | [] => .error (.valueError "filters are required for UPDATE (safe default)")
    | f0 :: fs =>
      match table_ref svc args.dataset args.table with
      | .error e => .error e
      | .ok tref =>
        match where_parts "s" 0 (s0 :: sv) with
        | .error e => .error e
        | .ok sp =>
          match where_parts "w" 0 (f0 :: fs) with
          | .error e => .error e
          | .ok wp =>
            .ok { sql := "\n        UPDATE " ++ tref
                      ++ "\n        SET " ++ String.intercalate ", " sp.1
                      ++ "\n        WHERE " ++ String.intercalate " AND " wp.1
                      ++ "\n        ",
                  params := sp.2 ++ wp.2 }

/-- `_delete` from app/bq_service.py, up to the `client.query` call.  The
table reference is validated first (as in the source); only then are the
filters examined and, when absent, the `allow_full_table_delete` flag. -/
def delete_build (svc : Svc) (args : ExecuteArgs) : Except AppError StoreQuery :=
  match table_ref svc args.dataset args.table with
  | .error e => .error e
  | .ok tref =>
    match py_truthy_list args.filters with
    | [] =>
      if svc.allow_full_table_delete then
        .ok { sql := "DELETE FROM " ++ tref, params := [] }
      else
        .error (.valueError "DELETE without filters is blocked by policy")
    | f0 :: fs =>
      match where_parts "d" 0 (f0 :: fs) with
      | .error e => .error e
      | .ok wp =>
        .ok { sql := "DELETE FROM " ++ tref ++ " WHERE "
                  ++ String.intercalate " AND " wp.1,
              params := wp.2 }

/-- `ALLOWED_TYPES` from app/bq_service.py. -/
def ALLOWED_TYPES : List String :=
  ["STRING", "BYTES", "INT64", "FLOAT64", "NUMERIC", "BIGNUMERIC",
   "BOOL", "TIMESTAMP", "DATE", "TIME", "DATETIME", "JSON"]

/-- The schema loop of `_create_table`: type allow-list check then field
name validation, per field, in order. -/
def check_schema_fields : List TableField → Except AppError (List TableField)
  | [] => .ok []
  | f :: rest =>
    if ALLOWED_TYPES.contains f.type then do
      let _ ← ensure_ident f.name "field name"
      let rs ← check_schema_fields rest
      .ok (f :: rs)
    else
      .error (.valueError ("Unsupported BigQuery type: " ++ f.type))

/-- `_create_table` from app/bq_service.py, up to `client.create_table`. -/
def create_table_build (svc : Svc) (args : ExecuteArgs) : Except AppError StoreCall :=
  match py_truthy_list args.schema with
  | [] => .error (.valueError "schema is required for CREATE_TABLE")
  | sch => do
    let _ ← ensure_ident args.dataset "dataset"
    let _ ← ensure_ident args.table "table"
    let fields ← check_schema_fields sch
    .ok (.createTable (svc.project_id ++ "." ++ args.dataset ++ "." ++ args.table)
          fields args.if_not_exists)

/-- `_insert` from app/bq_service.py, up to `client.insert_rows_json`. -/
def insert_build (svc : Svc) (args : ExecuteArgs) : Except AppError StoreCall :=
  match py_truthy_list args.rows with
  | [] => .error (.valueError "rows is required for INSERT")
  | rows => do
    let _ ← ensure_ident args.dataset "dataset"
    let _ ← ensure_ident args.table "table"
    .ok (.insertRows (svc.project_id ++ "." ++ args.dataset ++ "." ++ args.table) rows)

/-- `BigQueryService.execute`: dispatch on the operation kind.  The result
is the store interaction the service performs; a `.error` value means the
method raised before reaching the store client. -/
def service_execute (svc : Svc) (args : ExecuteArgs) : Except AppError StoreCall :=
  match args.operation with
  | .SELECT => (select_build svc args).map StoreCall.query
  | .CREATE_TABLE => create_table_build svc args
  | .INSERT => insert_build svc args
  | .UPDATE => (update_build svc args).map StoreCall.query
  | .DELETE => (delete_build svc args).map StoreCall.query

/-- One rule set of the policy document (app/policy.py): missing
`operations` / `datasets` keys default to empty, as `rules.get` does. -/
structure RuleSet : Type where
  operations : List String := []
  datasets : List (String × List String) := []

/-- The policy document: `principals` map plus `default` rule set (a
missing `default` key behaves as the empty rule set). -/
structure PolicyDoc : Type where
  principals : List (String × RuleSet) := []
  dfault : RuleSet := {}

/-- `PolicyEngine._normalize_ops`: `op.upper().strip()` over the list
(membership in the resulting Python set is membership in this list). -/
def normalize_ops (ops : List String) : List String :=
  ops.map (fun op => py_strip (py_upper op))

/-- `PolicyEngine._get_rules_for_principal`: lowercase-and-strip the
principal, exact lookup, else the default rule set. -/
def get_rules_for_principal (pe : PolicyDoc) (principal : String) : RuleSet :=
  match pe.principals.lookup (py_strip (py_lower principal)) with
  | some r => r
  | none => pe.dfault

/-- `PolicyEngine.assert_allowed` from app/policy.py: operation check,
then dataset check, then wildcard / exact-table check, each with its own
`PermissionError` message. -/
def assert_allowed (pe : PolicyDoc) (principal operation dataset table : String) :
    Except AppError Unit :=
  let rules := get_rules_for_principal pe principal
  let allowed_ops := normalize_ops rules.operations
  let op_u := py_strip (py_upper operation)
  if allowed_ops.contains op_u then
    match rules.datasets.lookup dataset with
    | none =>
      .error (.permissionError
        ("Dataset \x27" ++ dataset ++ "\x27 is not allowed for principal \x27"
          ++ principal ++ "\x27"))
    | some tables =>
      if tables.contains "*" then .ok ()
      else if tables.contains table then .ok ()
      else
        .error (.permissionError
          ("Table \x27" ++ dataset ++ "." ++ table
            ++ "\x27 is not allowed for principal \x27" ++ principal ++ "\x27"))
  else
    .error (.permissionError
      ("Operation \x27" ++ op_u ++ "\x27 is not allowed for principal \x27"
        ++ principal ++ "\x27"))

/-- The `/v1/execute` endpoint body (app/main.py `execute_rest`):
`policy_engine.assert_allowed(...)` first, then
`bq_service.execute(args)`.  The same order is used by the MCP
endpoint's `execute_callable`. -/
def gateway_execute (pe : PolicyDoc) (svc : Svc) (principal : String)
    (args : ExecuteArgs) : Except AppError StoreCall := do
  let _ ← assert_allowed pe principal args.operation.value args.dataset args.table
  service_execute svc args

/-- JSON values, used for the opaque `id` of a JSON-RPC request, for raw
tool arguments and for result payloads. -/
inductive Json : Type where
  | jnull : Json
  | jbool (b : Bool) : Json
  | jnum (n : Int) : Json
  | jstr (s : String) : Json
  | jarr (xs : List Json) : Json
  | jobj (fields : List (String × Json)) : Json

/-- Key lookup in a JSON object (`None` when absent or not an object). -/
def jget (k : String) : Json → Option Json
  | .jobj fields => fields.lookup k
  | _ => none

/-- The fields of `params` that `handle_mcp_request` reads via
`params.get`: the requested tool `name` and the raw `arguments`. -/
structure McpParams : Type where
  name : Option String := none
  arguments : Option Json := none

/-- `JsonRpcRequest` from app/models.py.  `id : Any = None` is modelled
as a `Json` value defaulting to null (absent and null coincide, as they
do for pydantic). -/
structure JsonRpcRequest : Type where
  jsonrpc : String := "2.0"
  id : Json := .jnull
  method : String
  params : Option McpParams := none

/-- A JSON-RPC response envelope: `_rpc_ok` and `_rpc_err` from
app/mcp_protocol.py. -/
inductive RpcResponse : Type where
  | ok (id : Json) (result : Json) : RpcResponse
  | err (id : Json) (code : Int) (message : String) : RpcResponse

/-- The `id` field of a response envelope. -/
def RpcResponse.rid : RpcResponse → Json
  | .ok i _ => i
  | .err i _ _ => i

/-- Python `f"...{x}..."` on an `Optional[str]`: `None` prints as
`"None"`. -/
def py_show_opt_str : Option String → String
  | none => "None"
  | some s => s

/-- The `inputSchema` literal of the single tool descriptor returned by
`tools/list` (app/mcp_protocol.py), transcribed field by field. -/
def execute_input_schema : Json :=
  .jobj [
    ("type", .jstr "object"),
    ("properties", .jobj [
      ("operation", .jobj [
        ("type", .jstr "string"),
        ("enum", .jarr [.jstr "SELECT", .jstr "CREATE_TABLE", .jstr "INSERT",
                        .jstr "UPDATE", .jstr "DELETE"])]),
      ("dataset", .jobj [("type", .jstr "string")]),
      ("table", .jobj [("type", .jstr "string")]),
      ("columns", .jobj [("type", .jstr "array"),
                         ("items", .jobj [("type", .jstr "string")])]),
      ("filters", .jobj [("type", .jstr "object")]),
      ("limit", .jobj [("type", .jstr "integer")]),
      ("schema", .jobj [
        ("type", .jstr "array"),
        ("items", .jobj [
          ("type", .jstr "object"),
          ("properties", .jobj [
            ("name", .jobj [("type", .jstr "string")]),
            ("type", .jobj [("type", .jstr "string")]),
            ("mode", .jobj [("type", .jstr "string")])]),
          ("required", .jarr [.jstr "name", .jstr "type"])])]),
      ("if_not_exists", .jobj [("type", .jstr "boolean")]),
      ("rows", .jobj [("type", .jstr "array"),
                      ("items", .jobj [("type", .jstr "object")])]),
      ("set_values", .jobj [("type", .jstr "object")])]),
    ("required", .jarr [.jstr "operation", .jstr "dataset", .jstr "table"])]

/-- The single tool descriptor served by `tools/list`. -/
def execute_tool_descriptor : Json :=
  .jobj [
    ("name", .jstr "bigquery.execute"),
    ("description", .jstr "Run controlled BigQuery operation"),
    ("inputSchema", execute_input_schema)]

/-- The static result payload of `tools/list`. -/
def tools_list_result : Json :=
  .jobj [("tools", .jarr [execute_tool_descriptor])]

/-- `handle_mcp_request` from app/mcp_protocol.py.  The two external
collaborators of the dispatcher are passed in as functions, exactly as the
source receives `execute_callable` and calls pydantic's
`ExecuteArgs.model_validate` for parsing: `validate_args` stands for the
latter (a `ValidationError` is its `.error` case), and an exception
escaping `execute_callable` is its `.error` case, rendered with `str(e)`. -/
def handle_mcp_request (validate_args : Json → Except String ExecuteArgs)
    (execute_callable : ExecuteArgs → Except AppError Json)
    (req : JsonRpcRequest) : RpcResponse :=
  let params := req.params.getD {}
  if req.method = "tools/list" then
    .ok req.id tools_list_result
  else if req.method = "tools/call" then
    if params.name = some "bigquery.execute" then
      match validate_args (params.arguments.getD (.jobj [])) with
      | .error e => .err req.id (-32602) ("Invalid params: " ++ e)
      | .ok parsed =>
        match execute_callable parsed with
        | .ok result => .ok req.id result
        | .error e => .err req.id (-32000) e.msg
    else
      .err req.id (-32601) ("Unknown tool: " ++ py_show_opt_str params.name)
  else
    .err req.id (-32601) ("Unknown method: " ++ req.method)

/-! Concrete instances used by closed theorems and witnesses. -/

/-- A service configuration with the default settings
(`max_select_limit = 1000`, `allow_full_table_delete = False`). -/
def svc_w : Svc := { project_id := "proj" }

/-- The same configuration with `allow_full_table_delete` enabled. -/
def svc_delete_on : Svc := { project_id := "proj", allow_full_table_delete := true }

/-- The policy of the spec's worked example:
`{operations:[SELECT], datasets:{"sales":["orders"]}}` for principal `p`. -/
def c7_policy : PolicyDoc :=
  { principals := [("p", { operations := ["SELECT"], datasets := [("sales", ["orders"])] })] }

/-- A policy whose default rule set allows every operation on every table
of dataset `d` (wildcard). -/
def allow_all_policy : PolicyDoc :=
  { dfault := { operations := ["SELECT", "CREATE_TABLE", "INSERT", "UPDATE", "DELETE"],
                datasets := [("d", ["*"])] } }

/-- An UPDATE request with absent `set_values` and a non-empty filter. -/
def upd_no_set_args : ExecuteArgs :=
  { operation := .UPDATE, dataset := "d", table := "t",
    filters := some [("a", .vint 1)] }

/-- A DELETE request with no filters. -/
def del_no_filters_args : ExecuteArgs :=
  { operation := .DELETE, dataset := "d", table := "t" }

/-- A stand-in for `ExecuteArgs.model_validate` that always rejects. -/
def stub_validate : Json → Except String ExecuteArgs :=
  fun _ => .error "stub"

/-- A stand-in `execute_callable` that always fails. -/
def stub_execute : ExecuteArgs → Except AppError Json :=
  fun _ => .error (.valueError "stub")

/-- A `tools/list` request (default null id, no params). -/
def req_tools_list : JsonRpcRequest := { method := "tools/list" }

/-- `true` exactly when the outcome is a raised `PermissionError`. -/
def is_permission_error : Except AppError StoreCall → Bool
  | .error (.permissionError _) => true
  | _ => false

/-- A policy document with no principals and no default entry: it denies
every request. -/
def empty_policy : PolicyDoc := {}

/-- The key projection of a request dict: the identifier (trusted,
validated) part of `filters` / `set_values`.  The associated values are
the untrusted part. -/
def keys (fs : PyStrDict) : List String :=
  fs.map Prod.fst

/-- The parameter list a predicate-building loop produces, stated
directly: the i-th dict entry `(k, v)` is bound as the typed parameter
`(pfx ++ i, _param_type v, v)`.  Used to characterize the `params` output
of the builders. -/
def params_of (pfx : String) : Nat → PyStrDict → List QueryParam
  | _, [] => []
  | i, (_, v) :: rest =>
    { name := pfx ++ toString i, ptype := param_type v, value := v }
      :: params_of pfx (i + 1) rest

/-- Two SELECT requests that differ only in their untrusted parts: the
filter values and the limit. -/
def sel_args_a : ExecuteArgs :=
  { operation := .SELECT, dataset := "d", table := "t",
    columns := some ["c1", "c2"],
    filters := some [("k1", .vint 7), ("k2", .vstr "x")], limit := 50 }

def sel_args_b : ExecuteArgs :=
  { operation := .SELECT, dataset := "d", table := "t",
    columns := some ["c1", "c2"],
    filters := some [("k1", .vbool true), ("k2", .vdec "1.5")], limit := 5000 }

/-- Two UPDATE requests that differ only in their set-values and filter
values. -/
def upd_args_a : ExecuteArgs :=
  { operation := .UPDATE, dataset := "d", table := "t",
    set_values := some [("s1", .vstr "done")],
    filters := some [("k1", .vint 7)] }

def upd_args_b : ExecuteArgs :=
  { operation := .UPDATE, dataset := "d", table := "t",
    set_values := some [("s1", .vdatetime "2024-01-01T00:00:00")],
    filters := some [("k1", .vfloat "7.5")] }

/-- Two DELETE requests that differ only in their filter values. -/
def del_args_a : ExecuteArgs :=
  { operation := .DELETE, dataset := "d", table := "t",
    filters := some [("k1", .vint 7)] }

def del_args_b : ExecuteArgs :=
  { operation := .DELETE, dataset := "d", table := "t",
    filters := some [("k1", .vdate "2024-01-01")] }

/-! Helper lemmas (shared). -/

mutual

theorem normalize_value_idem : (v : PyVal) →
    normalize_value (normalize_value v) = normalize_value v
  | .vnone => rfl
  | .vbool _ => rfl
  | .vint _ => rfl
  | .vfloat _ => rfl
  | .vdec _ => rfl
  | .vdatetime _ => rfl
  | .vdate _ => rfl
  | .vtime _ => rfl
  | .vstr _ => rfl
  | .vlist xs => congrArg PyVal.vlist (normalize_pylist_idem xs)
  | .vdict xs => congrArg PyVal.vdict (normalize_pydict_idem xs)

theorem normalize_pylist_idem : (xs : PyList) →
    normalize_pylist (normalize_pylist xs) = normalize_pylist xs
  | .nil => rfl
  | .cons h t =>
    congr_arg₂ PyList.cons (normalize_value_idem h) (normalize_pylist_idem t)

theorem normalize_pydict_idem : (xs : PyDict) →
    normalize_pydict (normalize_pydict xs) = normalize_pydict xs
  | .nil => rfl
  | .cons k v t =>
    congr_arg₂ (PyDict.cons k) (normalize_value_idem v) (normalize_pydict_idem t)

end

theorem keys_eq_nil {l : PyStrDict} (h : keys l = []) : l = [] := by
  cases l with
  | nil => rfl
  | cons a t => simp [keys] at h

/-- The SQL fragments a predicate loop emits depend only on the dict's
keys, never on its values. -/
theorem where_parts_fst_congr (pfx : String) :
    ∀ (i : Nat) (f g : PyStrDict), keys f = keys g →
      (where_parts pfx i f).map Prod.fst = (where_parts pfx i g).map Prod.fst := by
  intro i f
  induction f generalizing i with
  | nil =>
    intro g hk
    have := keys_eq_nil hk.symm
    subst this
    rfl
  | cons a ft ih =>
    intro g hk
    cases g with
    | nil => simp [keys] at hk
    | cons b gt =>
      obtain ⟨ka, va⟩ := a
      obtain ⟨kb, vb⟩ := b
      simp only [keys, List.map_cons, List.cons.injEq] at hk
      obtain ⟨hk1, hk2⟩ := hk
      subst hk1
      simp only [where_parts]
      cases hcr : col_ref ka with
      | error e => rfl
      | ok col =>
        have hih := ih (i + 1) gt hk2
        cases hfa : where_parts pfx (i + 1) ft with
        | error e =>
          cases hgb : where_parts pfx (i + 1) gt with
          | error e2 =>
            rw [hfa, hgb] at hih
            simp only [Except.map] at hih
            injection hih with he
            subst he
            rfl
          | ok qr =>
            rw [hfa, hgb] at hih
            simp [Except.map] at hih
        | ok pr =>
          cases hgb : where_parts pfx (i + 1) gt with
          | error e2 =>
            rw [hfa, hgb] at hih
            simp [Except.map] at hih
          | ok qr =>
            rw [hfa, hgb] at hih
            simp only [Except.map, Except.ok.injEq] at hih
            simp only [Except.map, Except.ok.injEq]
            rw [hih]

/-- The parameter list a predicate loop emits is exactly `params_of`:
each dict value, in order, bound under the loop's name space with its
inferred type. -/
theorem where_parts_params (pfx : String) :
    ∀ (i : Nat) (fs : PyStrDict) (pr : List String × List QueryParam),
      where_parts pfx i fs = .ok pr → pr.2 = params_of pfx i fs := by
  intro i fs
  induction fs generalizing i with
  | nil =>
    intro pr h
    simp only [where_parts] at h
    injection h with h1
    subst h1
    rfl
  | cons a ft ih =>
    intro pr h
    obtain ⟨ka, va⟩ := a
    simp only [where_parts] at h
    split at h
    · exact absurd h (by simp)
    · split at h
      · exact absurd h (by simp)
      · rename_i qr hw
        injection h with h1
        subst h1
        exact congrArg (List.cons _) (ih (i + 1) qr hw)

/-- The SQL side of `select_where` depends only on the filter keys. -/
theorem select_where_fst_congr (base : String) (f g : PyStrDict)
    (hk : keys f = keys g) :
    (select_where base f).map Prod.fst = (select_where base g).map Prod.fst := by
  cases f with
  | nil =>
    have := keys_eq_nil hk.symm
    subst this
    rfl
  | cons a ft =>
    cases g with
    | nil => simp [keys] at hk
    | cons b gt =>
      simp only [select_where]
      have hw := where_parts_fst_congr "f" 0 (a :: ft) (b :: gt) hk
      cases hfa : where_parts "f" 0 (a :: ft) with
      | error e =>
        cases hgb : where_parts "f" 0 (b :: gt) with
        | error e2 =>
          rw [hfa, hgb] at hw
          simp only [Except.map] at hw
          injection hw with he
          subst he
          rfl
        | ok qr =>
          rw [hfa, hgb] at hw
          simp [Except.map] at hw
      | ok pr =>
        cases hgb : where_parts "f" 0 (b :: gt) with
        | error e2 =>
          rw [hfa, hgb] at hw
          simp [Except.map] at hw
        | ok qr =>
          rw [hfa, hgb] at hw
          simp only [Except.map, Except.ok.injEq] at hw
          simp only [Except.map, Except.ok.injEq]
          rw [hw]

/-- The parameter side of `select_where` is exactly the filter values,
each bound under `f{i}` with its inferred type. -/
theorem select_where_params (base : String) (fs : PyStrDict)
    (st : String × List QueryParam) (h : select_where base fs = .ok st) :
    st.2 = params_of "f" 0 fs := by
  cases fs with
  | nil =>
    simp only [select_where] at h
    injection h with h1
    subst h1
    rfl
  | cons c rest =>
    simp only [select_where] at h
    split at h
    · exact absurd h (by simp)
    · rename_i wp hw
      injection h with h1
      subst h1
      exact where_parts_params "f" 0 (c :: rest) wp hw

/-- SELECT: the generated SQL text is a function of the identifiers only —
two requests with the same dataset, table, columns and filter keys but
arbitrary filter values and limits produce identical query text. -/
theorem select_sql_value_independent (svc : Svc) (a b : ExecuteArgs)
    (hds : a.dataset = b.dataset) (htb : a.table = b.table)
    (hcols : a.columns = b.columns)
    (hk : keys (py_truthy_list a.filters) = keys (py_truthy_list b.filters)) :
    (select_build svc a).map StoreQuery.sql = (select_build svc b).map StoreQuery.sql := by
  unfold select_build
  rw [← hds, ← htb, ← hcols]
  cases htr : table_ref svc a.dataset a.table with
  | error e => rfl
  | ok tref =>
    dsimp only
    cases hc : select_cols a.columns with
    | error e => rfl
    | ok cols =>
      dsimp only
      have hw := select_where_fst_congr ("SELECT " ++ cols ++ " FROM " ++ tref)
        (py_truthy_list a.filters) (py_truthy_list b.filters) hk
      cases hwa : select_where ("SELECT " ++ cols ++ " FROM " ++ tref)
          (py_truthy_list a.filters) with
      | error e =>
        cases hwb : select_where ("SELECT " ++ cols ++ " FROM " ++ tref)
            (py_truthy_list b.filters) with
        | error e2 =>
          rw [hwa, hwb] at hw
          simp only [Except.map] at hw
          injection hw with he
          subst he
          rfl
        | ok qr =>
          rw [hwa, hwb] at hw
          simp [Except.map] at hw
      | ok st =>
        cases hwb : select_where ("SELECT " ++ cols ++ " FROM " ++ tref)
            (py_truthy_list b.filters) with
        | error e2 =>
          rw [hwa, hwb] at hw
          simp [Except.map] at hw
        | ok st2 =>
          rw [hwa, hwb] at hw
          simp only [Except.map, Except.ok.injEq] at hw
          simp only [Except.map, Except.ok.injEq]
          rw [hw]

/-- SELECT: whenever a query is built, its parameter list is exactly the
filter values — each bound as `f{i}` with its inferred type — followed by
the clamped limit bound as the INT64 parameter `limit`.  No other value
reaches the store request. -/
theorem select_params_spec (svc : Svc) (a : ExecuteArgs) :
    (select_build svc a).map StoreQuery.params
      = (select_build svc a).map (fun _ =>
          params_of "f" 0 (py_truthy_list a.filters)
          ++ [{ name := "limit", ptype := "INT64",
                value := .vint (eff_limit svc.max_select_limit a.limit) }]) := by
  unfold select_build
  cases htr : table_ref svc a.dataset a.table with
  | error e => rfl
  | ok tref =>
    dsimp only
    cases hc : select_cols a.columns with
    | error e => rfl
    | ok cols =>
      dsimp only
      cases hwa : select_where ("SELECT " ++ cols ++ " FROM " ++ tref)
          (py_truthy_list a.filters) with
      | error e => rfl
      | ok st =>
        simp only [Except.map, Except.ok.injEq]
        rw [select_where_params _ _ _ hwa]

/-- UPDATE: the generated SQL text is a function of the identifiers only —
two requests with the same dataset, table, set-value keys and filter keys
but arbitrary set-values and filter values produce identical query text. -/
theorem update_sql_value_independent (svc : Svc) (a b : ExecuteArgs)
    (hds : a.dataset = b.dataset) (htb : a.table = b.table)
    (hsk : keys (py_truthy_list a.set_values) = keys (py_truthy_list b.set_values))
    (hfk : keys (py_truthy_list a.filters) = keys (py_truthy_list b.filters)) :
    (update_build svc a).map StoreQuery.sql = (update_build svc b).map StoreQuery.sql := by
  unfold update_build
  rw [← hds, ← htb]
  cases hsv : py_truthy_list a.set_values with
  | nil =>
    rw [hsv] at hsk
    have := keys_eq_nil hsk.symm
    rw [this]
  | cons sa sft =>
    rw [hsv] at hsk
    dsimp only
    cases hbs : py_truthy_list b.set_values with
    | nil => rw [hbs] at hsk; simp [keys] at hsk
    | cons sb sbt =>
      rw [hbs] at hsk
      dsimp only
      cases hfa : py_truthy_list a.filters with
      | nil =>
        rw [hfa] at hfk
        have := keys_eq_nil hfk.symm
        rw [this]
      | cons fa fat =>
        rw [hfa] at hfk
        dsimp only
        cases hfb : py_truthy_list b.filters with
        | nil => rw [hfb] at hfk; simp [keys] at hfk
        | cons fb fbt =>
          rw [hfb] at hfk
          dsimp only
          cases htr : table_ref svc a.dataset a.table with
          | error e => rfl
          | ok tref =>
            dsimp only
            have hs := where_parts_fst_congr "s" 0 (sa :: sft) (sb :: sbt) hsk
            cases hspa : where_parts "s" 0 (sa :: sft) with
            | error e =>
              cases hspb : where_parts "s" 0 (sb :: sbt) with
              | error e2 =>
                rw [hspa, hspb] at hs
                simp only [Except.map] at hs
                injection hs with he
                subst he
                rfl
              | ok sq =>
                rw [hspa, hspb] at hs
                simp [Except.map] at hs
            | ok sp =>
              dsimp only
              cases hspb : where_parts "s" 0 (sb :: sbt) with
              | error e2 =>
                rw [hspa, hspb] at hs
                simp [Except.map] at hs
              | ok sq =>
                rw [hspa, hspb] at hs
                simp only [Except.map, Except.ok.injEq] at hs
                dsimp only
                have hwq := where_parts_fst_congr "w" 0 (fa :: fat) (fb :: fbt) hfk
                cases hwpa : where_parts "w" 0 (fa :: fat) with
                | error e =>
                  cases hwpb : where_parts "w" 0 (fb :: fbt) with
                  | error e2 =>
                    rw [hwpa, hwpb] at hwq
                    simp only [Except.map] at hwq
                    injection hwq with he
                    subst he
                    rfl
                  | ok wq =>
                    rw [hwpa, hwpb] at hwq
                    simp [Except.map] at hwq
                | ok wp =>
                  cases hwpb : where_parts "w" 0 (fb :: fbt) with
                  | error e2 =>
                    rw [hwpa, hwpb] at hwq
                    simp [Except.map] at hwq
                  | ok wq =>
                    rw [hwpa, hwpb] at hwq
                    simp only [Except.map, Except.ok.injEq] at hwq
                    simp only [Except.map, Except.ok.injEq]
                    rw [hs, hwq]

/-- UPDATE: whenever a query is built, its parameter list is exactly the
set-values bound as `s{i}` followed by the filter values bound as `w{i}`,
each with its inferred type. -/
theorem update_params_spec (svc : Svc) (a : ExecuteArgs) :
    (update_build svc a).map StoreQuery.params
      = (update_build svc a).map (fun _ =>
          params_of "s" 0 (py_truthy_list a.set_values)
          ++ params_of "w" 0 (py_truthy_list a.filters)) := by
  unfold update_build
  cases hsv : py_truthy_list a.set_values with
  | nil => rfl
  | cons sa sft =>
    dsimp only
    cases hfa : py_truthy_list a.filters with
    | nil => rfl
    | cons fa fat =>
      dsimp only
      cases htr : table_ref svc a.dataset a.table with
      | error e => rfl
      | ok tref =>
        dsimp only
        cases hspa : where_parts "s" 0 (sa :: sft) with
        | error e => rfl
        | ok sp =>
          dsimp only
          cases hwpa : where_parts "w" 0 (fa :: fat) with
          | error e => rfl
          | ok wp =>
            simp only [Except.map, Except.ok.injEq]
            rw [where_parts_params "s" 0 _ sp hspa,
                where_parts_params "w" 0 _ wp hwpa]

/-- DELETE: the generated SQL text is a function of the identifiers and
the configuration flag only — two requests with the same dataset, table
and filter keys but arbitrary filter values produce identical query
text. -/
theorem delete_sql_value_independent (svc : Svc) (a b : ExecuteArgs)
    (hds : a.dataset = b.dataset) (htb : a.table = b.table)
    (hk : keys (py_truthy_list a.filters) = keys (py_truthy_list b.filters)) :
    (delete_build svc a).map StoreQuery.sql = (delete_build svc b).map StoreQuery.sql := by
  unfold delete_build
  rw [← hds, ← htb]
  cases htr : table_ref svc a.dataset a.table with
  | error e => rfl
  | ok tref =>
    dsimp only
    cases hfa : py_truthy_list a.filters with
    | nil =>
      rw [hfa] at hk
      have := keys_eq_nil hk.symm
      rw [this]
    | cons fa fat =>
      rw [hfa] at hk
      dsimp only
      cases hfb : py_truthy_list b.filters with
      | nil => rw [hfb] at hk; simp [keys] at hk
      | cons fb fbt =>
        rw [hfb] at hk
        dsimp only
        have hw := where_parts_fst_congr "d" 0 (fa :: fat) (fb :: fbt) hk
        cases hwpa : where_parts "d" 0 (fa :: fat) with
        | error e =>
          cases hwpb : where_parts "d" 0 (fb :: fbt) with
          | error e2 =>
            rw [hwpa, hwpb] at hw
            simp only [Except.map] at hw
            injection hw with he
            subst he
            rfl
          | ok wq =>
            rw [hwpa, hwpb] at hw
            simp [Except.map] at hw
        | ok wp =>
          cases hwpb : where_parts "d" 0 (fb :: fbt) with
          | error e2 =>
            rw [hwpa, hwpb] at hw
            simp [Except.map] at hw
          | ok wq =>
            rw [hwpa, hwpb] at hw
            simp only [Except.map, Except.ok.injEq] at hw
            simp only [Except.map, Except.ok.injEq]
            rw [hw]

/-- DELETE: whenever a query is built, its parameter list is exactly the
filter values bound as `d{i}` with their inferred types (and empty for a
full-table delete). -/
theorem delete_params_spec (svc : Svc) (a : ExecuteArgs) :
    (delete_build svc a).map StoreQuery.params
      = (delete_build svc a).map (fun _ =>
          params_of "d" 0 (py_truthy_list a.filters)) := by
  unfold delete_build
  cases htr : table_ref svc a.dataset a.table with
  | error e => rfl
  | ok tref =>
    dsimp only
    cases hfa : py_truthy_list a.filters with
    | nil =>
      cases hfl : svc.allow_full_table_delete <;> simp only [hfl] <;> rfl
    | cons fa fat =>
      dsimp only
      cases hwpa : where_parts "d" 0 (fa :: fat) with
      | error e => rfl
      | ok wp =>
        simp only [Except.map, Except.ok.injEq]
        exact where_parts_params "d" 0 _ wp hwpa

/-! Claim theorems. -/

/-- C1: for every SELECT, UPDATE and DELETE request, untrusted values
(filter values, set-values, the limit) never appear in the generated
query text: the text is invariant under changing them (conjuncts 1, 3, 5
— only validated identifiers, fixed keywords and placeholders determine
it), and each untrusted value is bound in the parameter list as a typed
query parameter — `f{i}` / `s{i}` / `w{i}` / `d{i}` with its inferred
store type, plus the clamped INT64 `limit` parameter for SELECT
(conjuncts 2, 4, 6). -/
theorem untrusted_values_parameterized :
    (∀ (svc : Svc) (a b : ExecuteArgs), a.dataset = b.dataset → a.table = b.table →
      a.columns = b.columns →
      keys (py_truthy_list a.filters) = keys (py_truthy_list b.filters) →
      (select_build svc a).map StoreQuery.sql = (select_build svc b).map StoreQuery.sql)
    ∧ (∀ (svc : Svc) (a : ExecuteArgs),
      (select_build svc a).map StoreQuery.params
        = (select_build svc a).map (fun _ =>
            params_of "f" 0 (py_truthy_list a.filters)
            ++ [{ name := "limit", ptype := "INT64",
                  value := .vint (eff_limit svc.max_select_limit a.limit) }]))
    ∧ (∀ (svc : Svc) (a b : ExecuteArgs), a.dataset = b.dataset → a.table = b.table →
      keys (py_truthy_list a.set_values) = keys (py_truthy_list b.set_values) →
      keys (py_truthy_list a.filters) = keys (py_truthy_list b.filters) →
      (update_build svc a).map StoreQuery.sql = (update_build svc b).map StoreQuery.sql)
    ∧ (∀ (svc : Svc) (a : ExecuteArgs),
      (update_build svc a).map StoreQuery.params
        = (update_build svc a).map (fun _ =>
            params_of "s" 0 (py_truthy_list a.set_values)
            ++ params_of "w" 0 (py_truthy_list a.filters)))
    ∧ (∀ (svc : Svc) (a b : ExecuteArgs), a.dataset = b.dataset → a.table = b.table →
      keys (py_truthy_list a.filters) = keys (py_truthy_list b.filters) →
      (delete_build svc a).map StoreQuery.sql = (delete_build svc b).map StoreQuery.sql)
    ∧ (∀ (svc : Svc) (a : ExecuteArgs),
      (delete_build svc a).map StoreQuery.params
        = (delete_build svc a).map (fun _ =>
            params_of "d" 0 (py_truthy_list a.filters))) :=
  ⟨select_sql_value_independent, select_params_spec,
   update_sql_value_independent, update_params_spec,
   delete_sql_value_independent, delete_params_spec⟩

theorem untrusted_values_parameterized_witness :
    (select_build svc_w sel_args_a).map StoreQuery.sql
      = (select_build svc_w sel_args_b).map StoreQuery.sql
    ∧ (select_build svc_w sel_args_a).map StoreQuery.params
      = (select_build svc_w sel_args_a).map (fun _ =>
          params_of "f" 0 (py_truthy_list sel_args_a.filters)
          ++ [{ name := "limit", ptype := "INT64",
                value := .vint (eff_limit svc_w.max_select_limit sel_args_a.limit) }])
    ∧ (update_build svc_w upd_args_a).map StoreQuery.sql
      = (update_build svc_w upd_args_b).map StoreQuery.sql
    ∧ (update_build svc_w upd_args_a).map StoreQuery.params
      = (update_build svc_w upd_args_a).map (fun _ =>
          params_of "s" 0 (py_truthy_list upd_args_a.set_values)
          ++ params_of "w" 0 (py_truthy_list upd_args_a.filters))
    ∧ (delete_build svc_w del_args_a).map StoreQuery.sql
      = (delete_build svc_w del_args_b).map StoreQuery.sql
    ∧ (delete_build svc_w del_args_a).map StoreQuery.params
      = (delete_build svc_w del_args_a).map (fun _ =>
          params_of "d" 0 (py_truthy_list del_args_a.filters)) :=
  ⟨untrusted_values_parameterized.1 svc_w sel_args_a sel_args_b rfl rfl rfl rfl,
   untrusted_values_parameterized.2.1 svc_w sel_args_a,
   untrusted_values_parameterized.2.2.1 svc_w upd_args_a upd_args_b rfl rfl rfl rfl,
   untrusted_values_parameterized.2.2.2.1 svc_w upd_args_a,
   untrusted_values_parameterized.2.2.2.2.1 svc_w del_args_a del_args_b rfl rfl rfl,
   untrusted_values_parameterized.2.2.2.2.2 svc_w del_args_a⟩

/-- C10: result-value normalization is idempotent — applying
`_normalize_value` twice to any value, including nested lists and
mappings, yields the same result as applying it once. -/
theorem normalize_value_idempotent (v : PyVal) :
    normalize_value (normalize_value v) = normalize_value v :=
  normalize_value_idem v

/-- C8: the inferred query-parameter type of every possible value follows
the source's isinstance chain exactly: boolean to BOOL, integer to INT64,
floating-point to FLOAT64, decimal to NUMERIC, datetime to TIMESTAMP,
date-only to DATE, and everything else to STRING; the final conjunct
records that a boolean also satisfies the integer test, so checking
boolean first is what prevents misclassification. -/
theorem param_type_inference_precedence :
    (∀ b, param_type (.vbool b) = "BOOL")
    ∧ (∀ n, param_type (.vint n) = "INT64")
    ∧ (∀ r, param_type (.vfloat r) = "FLOAT64")
    ∧ (∀ d, param_type (.vdec d) = "NUMERIC")
    ∧ (∀ s, param_type (.vdatetime s) = "TIMESTAMP")
    ∧ (∀ s, param_type (.vdate s) = "DATE")
    ∧ (∀ s, param_type (.vtime s) = "STRING")
    ∧ (∀ s, param_type (.vstr s) = "STRING")
    ∧ param_type .vnone = "STRING"
    ∧ (∀ xs, param_type (.vlist xs) = "STRING")
    ∧ (∀ xs, param_type (.vdict xs) = "STRING")
    ∧ (∀ b, isinst_int (.vbool b) = true) :=
  ⟨fun _ => rfl, fun _ => rfl, fun _ => rfl, fun _ => rfl, fun _ => rfl,
   fun _ => rfl, fun _ => rfl, fun _ => rfl, rfl, fun _ => rfl, fun _ => rfl,
   fun _ => rfl⟩

/-- C7: against the rule set `{operations:[SELECT],
datasets:{"sales":["orders"]}}` for principal `p`, `assert_allowed`
succeeds on (SELECT, sales, orders) and denies (DELETE, sales, orders),
(SELECT, sales, invoices) and (SELECT, marketing, orders) with the
operation, table, and dataset reasons respectively. -/
theorem assert_allowed_c7_cases :
    assert_allowed c7_policy "p" "SELECT" "sales" "orders" = .ok ()
    ∧ assert_allowed c7_policy "p" "DELETE" "sales" "orders"
      = .error (.permissionError
          "Operation \x27DELETE\x27 is not allowed for principal \x27p\x27")
    ∧ assert_allowed c7_policy "p" "SELECT" "sales" "invoices"
      = .error (.permissionError
          "Table \x27sales.invoices\x27 is not allowed for principal \x27p\x27")
    ∧ assert_allowed c7_policy "p" "SELECT" "marketing" "orders"
      = .error (.permissionError
          "Dataset \x27marketing\x27 is not allowed for principal \x27p\x27") :=
  ⟨rfl, rfl, rfl, rfl⟩

/-- C6 (code evaluated at the failing input): the compiled identifier
check accepts the string `"abc\n"` unchanged — because Python's `$`
anchor also matches just before a trailing newline — even though
`"abc\n"` is not in the anchored language of
`^[A-Za-z_][A-Za-z0-9_]{0,127}$`. -/
theorem ensure_ident_accepts_trailing_newline :
    ensure_ident "abc\n" "column" = .ok "abc\n"
    ∧ ident_regex_lang "abc\n" = false
    ∧ ident_regex_lang "abc" = true := by
  refine ⟨rfl, by decide, by decide⟩

/-- C9: every response envelope produced by the protocol dispatcher —
tools/list, tools/call in each of its outcomes, and unknown methods —
carries exactly the correlation id of the originating request. -/
theorem mcp_response_echoes_id
    (validate_args : Json → Except String ExecuteArgs)
    (execute_callable : ExecuteArgs → Except AppError Json)
    (req : JsonRpcRequest) :
    (handle_mcp_request validate_args execute_callable req).rid = req.id := by
  unfold handle_mcp_request
  dsimp only
  repeat' split
  all_goals rfl

/-- C5 counterexample: the `tools/list` response is a success envelope
with exactly one tool descriptor, but that descriptor's name is
`"bigquery.execute"`, not `"execute-operation"`. -/
theorem tools_list_name_counterexample :
    handle_mcp_request stub_validate stub_execute req_tools_list
      = .ok .jnull tools_list_result
    ∧ jget "tools" tools_list_result = some (.jarr [execute_tool_descriptor])
    ∧ jget "name" execute_tool_descriptor = some (.jstr "bigquery.execute")
    ∧ "bigquery.execute" ≠ "execute-operation" := by
  refine ⟨rfl, rfl, rfl, by decide⟩

/-- C5 (amended): every `tools/list` request, regardless of parameters,
id, or the injected collaborators, yields a success envelope whose result
is the static payload holding exactly one tool descriptor, and that
descriptor's name is `"bigquery.execute"`. -/
theorem tools_list_single_descriptor
    (validate_args : Json → Except String ExecuteArgs)
    (execute_callable : ExecuteArgs → Except AppError Json)
    (req : JsonRpcRequest) (h : req.method = "tools/list") :
    handle_mcp_request validate_args execute_callable req
      = .ok req.id tools_list_result
    ∧ jget "tools" tools_list_result = some (.jarr [execute_tool_descriptor])
    ∧ jget "name" execute_tool_descriptor = some (.jstr "bigquery.execute") := by
  refine ⟨?_, rfl, rfl⟩
  unfold handle_mcp_request
  rw [if_pos h]

theorem tools_list_single_descriptor_witness :
    handle_mcp_request stub_validate stub_execute req_tools_list
      = .ok req_tools_list.id tools_list_result
    ∧ jget "tools" tools_list_result = some (.jarr [execute_tool_descriptor])
    ∧ jget "name" execute_tool_descriptor = some (.jstr "bigquery.execute") :=
  tools_list_single_descriptor stub_validate stub_execute req_tools_list rfl

/-- C3 counterexample: a requested limit of 0 against a configured max of
1000 is bound as 100 (Python's `args.limit or 100` treats 0 as falsy), not
as 1 as the claim states. -/
theorem eff_limit_zero_counterexample :
    eff_limit 1000 0 = 100 ∧ eff_limit 1000 0 ≠ 1 := by
  refine ⟨by decide, by decide⟩

/-- C3 (amended): the effective SELECT limit is the configured max when
the requested limit exceeds it, 1 when the requested limit is negative,
and 100 clamped to the configured max when the limit is 0 (falsy, hence
treated like absent) or absent (pydantic default 100). -/
theorem eff_limit_clamps (maxSel l : Int) (hmax : 1 ≤ maxSel) :
    (maxSel < l → eff_limit maxSel l = maxSel)
    ∧ (l < 0 → eff_limit maxSel l = 1)
    ∧ (l = 0 → eff_limit maxSel l = min 100 maxSel)
    ∧ eff_limit maxSel 100 = min 100 maxSel := by
  unfold eff_limit py_int_or
  refine ⟨fun h => ?_, fun h => ?_, fun h => ?_, ?_⟩ <;>
    simp only [Int.min_def, Int.max_def] <;> split_ifs <;> omega

/-- C2 counterexample: an UPDATE with absent `set_values`, sent by a
principal the policy denies, surfaces the policy's `PermissionError`,
not the validation error — so the empty-set_values guard does NOT run
before the policy-engine check (the gateway authorizes first and only
then calls the service, where the guard lives). -/
theorem update_guard_counterexample :
    gateway_execute empty_policy svc_w "p" upd_no_set_args
      = .error (.permissionError
          "Operation \x27UPDATE\x27 is not allowed for principal \x27p\x27")
    ∧ is_permission_error (gateway_execute empty_policy svc_w "p" upd_no_set_args)
      = true := by
  refine ⟨rfl, rfl⟩

/-- C2 (amended): for every UPDATE request with empty (or absent)
`set_values` or empty (or absent) `filters`, once the policy check has
passed, the request fails with a validation error (`ValueError`) and no
store interaction is attempted — the guard runs inside the operation
translator, after the gateway's policy-engine check, not before it. -/
theorem update_empty_guard_after_policy (pe : PolicyDoc) (svc : Svc)
    (principal : String) (args : ExecuteArgs)
    (hop : args.operation = .UPDATE)
    (hemp : py_truthy_list args.set_values = [] ∨ py_truthy_list args.filters = [])
    (hpol : assert_allowed pe principal args.operation.value args.dataset args.table
      = .ok ()) :
    ∃ m, gateway_execute pe svc principal args = .error (.valueError m) := by
  unfold gateway_execute
  rw [hpol]
  show ∃ m, service_execute svc args = .error (.valueError m)
  unfold service_execute
  rw [hop]
  show ∃ m, (update_build svc args).map StoreCall.query = .error (.valueError m)
  unfold update_build
  rcases hemp with hsv | hfs
  · rw [hsv]
    exact ⟨"set_values is required for UPDATE", rfl⟩
  · rcases hsv2 : py_truthy_list args.set_values with _ | ⟨a, l⟩
    · exact ⟨"set_values is required for UPDATE", rfl⟩
    · rw [hfs]
      exact ⟨"filters are required for UPDATE (safe default)", rfl⟩

theorem update_empty_guard_after_policy_witness :
    ∃ m, gateway_execute allow_all_policy svc_w "p" upd_no_set_args
      = .error (.valueError m) :=
  update_empty_guard_after_policy allow_all_policy svc_w "p" upd_no_set_args
    rfl (Or.inl rfl) rfl

/-- C4 counterexample: a DELETE with no filters, sent by an authorized
principal while `allow_full_table_delete` is disabled, fails with a
`ValueError` (mapped to 400/validation by the transport), not with a
`PermissionError` (Forbidden/403) as the claim states — only the error
message mentions policy. -/
theorem delete_no_filters_not_policy_error :
    gateway_execute allow_all_policy svc_w "p" del_no_filters_args
      = .error (.valueError "DELETE without filters is blocked by policy")
    ∧ is_permission_error
        (gateway_execute allow_all_policy svc_w "p" del_no_filters_args) = false := by
  refine ⟨rfl, rfl⟩

/-- C4 (amended): for every authorized DELETE request with no filters on
a valid table reference: when `allow_full_table_delete` is disabled the
request fails with a validation-kind (`ValueError`) error — whose message
says the delete is blocked by policy — before any store call; when the
flag is enabled the generated query is exactly `DELETE FROM` plus the
table reference, with no WHERE clause and no parameters. -/
theorem delete_no_filters_flag_behavior (pe : PolicyDoc) (svc : Svc)
    (principal : String) (args : ExecuteArgs)
    (hop : args.operation = .DELETE)
    (hf : py_truthy_list args.filters = [])
    (hpol : assert_allowed pe principal args.operation.value args.dataset args.table
      = .ok ())
    (tref : String) (htref : table_ref svc args.dataset args.table = .ok tref) :
    (svc.allow_full_table_delete = false →
      gateway_execute pe svc principal args
        = .error (.valueError "DELETE without filters is blocked by policy"))
    ∧ (svc.allow_full_table_delete = true →
      gateway_execute pe svc principal args
        = .ok (.query { sql := "DELETE FROM " ++ tref, params := [] })) := by
  have hbase : gateway_execute pe svc principal args
      = (delete_build svc args).map StoreCall.query := by
    unfold gateway_execute
    rw [hpol]
    show service_execute svc args = (delete_build svc args).map StoreCall.query
    unfold service_execute
    rw [hop]
  have hdel : delete_build svc args
      = (if svc.allow_full_table_delete then
          .ok { sql := "DELETE FROM " ++ tref, params := [] }
        else .error (.valueError "DELETE without filters is blocked by policy")) := by
    unfold delete_build
    rw [htref]
    simp only [hf]
  constructor
  · intro hflag
    rw [hbase, hdel, hflag]
    rfl
  · intro hflag
    rw [hbase, hdel, hflag]
    rfl

theorem delete_no_filters_flag_behavior_witness :
    gateway_execute allow_all_policy svc_w "p" del_no_filters_args
      = .error (.valueError "DELETE without filters is blocked by policy")
    ∧ gateway_execute allow_all_policy svc_delete_on "p" del_no_filters_args
      = .ok (.query { sql := "DELETE FROM " ++ "`proj.d.t`", params := [] }) :=
  ⟨(delete_no_filters_flag_behavior allow_all_policy svc_w "p" del_no_filters_args
      rfl rfl rfl "`proj.d.t`" rfl).1 rfl,
   (delete_no_filters_flag_behavior allow_all_policy svc_delete_on "p"
      del_no_filters_args rfl rfl rfl "`proj.d.t`" rfl).2 rfl⟩

theorem eff_limit_clamps_witness :
    eff_limit 1000 5000 = 1000
    ∧ eff_limit 1000 (-7) = 1
    ∧ eff_limit 1000 0 = min 100 1000
    ∧ eff_limit 1000 100 = min 100 1000 :=
  ⟨(eff_limit_clamps 1000 5000 (by decide)).1 (by decide),
   (eff_limit_clamps 1000 (-7) (by decide)).2.1 (by decide),
   (eff_limit_clamps 1000 0 (by decide)).2.2.1 (by decide),
   (eff_limit_clamps 1000 100 (by decide)).2.2.2⟩

end BqMcp
